import Mathlib

/-!
Verification of the stakeholder-summary generation service.

The development shallowly embeds the summary pipeline of
src/summary/services.py, src/summary/models.py and src/summary/utils.py:
pure functions become Lean functions, the Django model mutations become
explicit record updates, the database becomes an explicit store threaded
through the job lifecycle controller, and every fallible step returns an
Except value.  External collaborators (the json.loads decoder of the
Python standard library, the ChatOpenAI model endpoint, the langchain
text splitter, database insert outcomes) are parameters of the embedded
functions, so the theorems quantify over their behaviour.
-/

/-- Exceptions the embedded code can signal.  nameError models a Python
NameError raised when an unbound name is evaluated; generic carries the
message of any other exception (the repository's exceptions.py defines
only message-carrying Exception subclasses, and none of them is a
recursion-limit error). -/
inductive PyError where
  | nameError (name : String)
  | generic (msg : String)
deriving DecidableEq, Repr

/-- Rendering of an exception as str(e) does in generate_summary. -/
def PyError.str : PyError → String
  | .nameError n => "name '" ++ n ++ "' is not defined"
  | .generic m => m

/-- One summary section, the SectionOutput shape of services.py lines
21-26 and the per-section dict built by the parser fallback. -/
structure SSection where
  title : String
  content : String
  key_points : List String
  evidence_ids : List String
deriving DecidableEq, Repr, Inhabited

/-- The structured summary dict flowing through the pipeline: the
{sections, full_summary} shape plus the tokens_used entry that
_single_document_summary writes at services.py line 288. -/
structure SummaryData where
  sections : List SSection
  full_summary : String
  tokens_used : Nat
deriving DecidableEq, Repr, Inhabited

/-- One entry of the STAKEHOLDER_PROMPTS table (services.py lines
38-71): a focus description and the ordered expected section titles. -/
structure StakeholderConfig where
  focus : String
  sections : List String
deriving DecidableEq, Repr, Inhabited

def developerConfig : StakeholderConfig :=
  { focus := "technical specifications, building codes, construction methods, and quality standards"
    sections := ["Technical Overview", "Quality Standards", "Compliance Requirements", "Key Risks"] }

def contractorConfig : StakeholderConfig :=
  { focus := "project scope, timelines, resources, change orders, and deliverables"
    sections := ["Project Scope", "Timeline & Milestones", "Resource Requirements", "Change Management"] }

def architectConfig : StakeholderConfig :=
  { focus := "design intent, specifications, building codes, and design changes"
    sections := ["Design Overview", "Specifications", "Code Compliance", "Design Changes"] }

def clientConfig : StakeholderConfig :=
  { focus := "project progress, budget status, timeline, and quality outcomes"
    sections := ["Project Status", "Budget Summary", "Timeline", "Quality Assurance"] }

def projectManagerConfig : StakeholderConfig :=
  { focus := "overall status, risks, issues, resource allocation, and stakeholder coordination"
    sections := ["Executive Summary", "Risk & Issues", "Resource Status", "Key Decisions"] }

def legalConfig : StakeholderConfig :=
  { focus := "contractual obligations, compliance, claims, disputes, and liability"
    sections := ["Contractual Overview", "Compliance Status", "Claims & Disputes", "Risk Exposure"] }

def financeConfig : StakeholderConfig :=
  { focus := "costs, budget variance, payment status, and financial forecasts"
    sections := ["Financial Summary", "Budget Variance", "Cash Flow", "Financial Risks"] }

def executiveConfig : StakeholderConfig :=
  { focus := "high-level status, strategic risks, financial health, and key decisions needed"
    sections := ["Executive Summary", "Strategic Overview", "Financial Health", "Critical Actions"] }

/-- The eight keys of the STAKEHOLDER_PROMPTS dict. -/
def knownRoles : List String :=
  ["developer", "contractor", "architect", "client",
   "project_manager", "legal", "finance", "executive"]

/-- Lookup STAKEHOLDER_PROMPTS.get(role, STAKEHOLDER_PROMPTS of the
executive key), services.py lines 188-191: a frozen dict lookup with the
executive entry as the default. -/
def getStakeholderConfig (role : String) : StakeholderConfig :=
  if role = "developer" then developerConfig
  else if role = "contractor" then contractorConfig
  else if role = "architect" then architectConfig
  else if role = "client" then clientConfig
  else if role = "project_manager" then projectManagerConfig
  else if role = "legal" then legalConfig
  else if role = "finance" then financeConfig
  else if role = "executive" then executiveConfig
  else executiveConfig

/-- The sections list that the parser fallback builds at services.py
lines 366-376: one placeholder section per expected title, two
placeholder key points, evidence_ids the first at most two document ids
when the id list is non-empty. -/
def fallbackSections (cfg : StakeholderConfig) (document_ids : List String) : List SSection :=
  cfg.sections.map (fun t =>
    { title := t
      content := "[Content for " ++ t ++ " - parsed from response]"
      key_points := ["Key point 1 for " ++ t, "Key point 2 for " ++ t]
      evidence_ids := if document_ids.isEmpty then [] else document_ids.take 2 })

/-- The fallback path of _parse_llm_response, services.py lines 365-382.
The loop over the expected section titles (lines 366-376) completes, but
the dict literal at lines 378-381 then evaluates the expression
response[:job.max_length * 5] if hasattr(job, 'max_length') else
response[:2500] at line 380; job is not a parameter of
_parse_llm_response and is bound neither at module level nor as a
builtin, so Python raises NameError before the dict is built.  The
embedded fallback therefore returns the error these lines raise. -/
def parse_fallback (response : String) (cfg : StakeholderConfig)
    (document_ids : List String) : Except PyError SummaryData :=
  let _sections := fallbackSections cfg document_ids
  let _unusedResponse := response
  .error (.nameError "job")

/-- Embedding of _parse_llm_response, services.py lines 339-382.  The
first stage, json.loads followed by the two key-presence checks (lines
358-361), is the Python standard library plus a dict lookup; it is
abstracted into the decode parameter, where some data means the raw
text decoded as JSON and the decoded object carried both the sections
and the full_summary keys, and none covers both a JSONDecodeError and a
decoded object missing one of the keys (both continue into the fallback
path). -/
def parse_llm_response (decode : String → Option SummaryData)
    (response : String) (cfg : StakeholderConfig)
    (document_ids : List String) : Except PyError SummaryData :=
  match decode response with
  | some data => .ok data
  | none => parse_fallback response cfg document_ids

/-- A decode outcome for raw model text that is not valid JSON, as
json.loads behaves on such input. -/
def decodeFailsC1 : String → Option SummaryData := fun _ => none

/-- C1: the claim states that the Response Parser's fallback path always
terminates normally with a structured summary and never raises.  The
code contradicts it: on the failing input (the non-JSON response "this
is not JSON" with the executive profile and one document id) the
fallback raises NameError for the unbound name job, because
_parse_llm_response has no job parameter yet line 380 reads job.  The
theorem evaluates the embedded parser at that input. -/
theorem parse_fallback_raises_name_error :
    parse_llm_response decodeFailsC1 "this is not JSON" executiveConfig ["doc1"] =
      .error (.nameError "job") := rfl

/-- A decode outcome for raw model text that is not valid JSON, used at
the concrete inputs of the C6 evaluation. -/
def decodeFailsC6 : String → Option SummaryData := fun _ => none

/-- A decoded object carrying both required keys, as json.loads yields
on the well-formed response of the C6 evaluation. -/
def decodedDataC6 : SummaryData :=
  { sections := [{ title := "A", content := "c", key_points := ["k"], evidence_ids := [] }]
    full_summary := "s"
    tokens_used := 0 }

def decodeSucceedsC6 : String → Option SummaryData := fun _ => some decodedDataC6

/-- C6: the claim describes the two-stage parse algorithm.  Stage one
(return the decoded object unchanged when it decodes with both keys)
matches the code, but stage two fails on the code: instead of the
placeholder sections and the truncated full_summary the claim
describes, the fallback raises NameError for the unbound name job (see
parse_fallback).  The theorem evaluates both stages at concrete inputs:
the decoded object comes back unchanged, and the fallback input
produces the NameError rather than the described structure. -/
theorem parse_two_stage_divergence :
    parse_llm_response decodeSucceedsC6 "{...}" financeConfig ["d1"] = .ok decodedDataC6 ∧
    parse_llm_response decodeFailsC6 "garbage" financeConfig ["d1", "d2", "d3"] =
      .error (.nameError "job") := ⟨rfl, rfl⟩

/-- Embedding of _combine_document_texts, services.py lines 219-224:
each context is a (document_id, extracted_text) pair and the labeled
blocks are joined with a blank line. -/
def combine_document_texts (contexts : List (String × String)) : String :=
  String.intercalate "\n\n"
    (contexts.map (fun c => "--- Document " ++ c.1 ++ " ---\n" ++ c.2 ++ "\n"))

/-- Embedding of _single_document_summary, services.py lines 226-290.
Prompt construction (lines 234-271) only shapes the request and has no
observable effect on the returned data, so it is not modelled.  The
chain.run call on the external ChatOpenAI endpoint is abstracted as the
oracle parameter mapping the index of the call within the job run to the
raw response text and the token usage the callback reports; k is the
index of this call.  The second component of the result is the trace of
content strings submitted to the model by this invocation, in call
order.  After parsing, line 288 overwrites the tokens_used entry with
the callback total. -/
def single_document_summary (decode : String → Option SummaryData)
    (oracle : Nat → String × Nat) (k : Nat) (content : String)
    (cfg : StakeholderConfig) (document_ids : List String) :
    Except PyError SummaryData × List String :=
  let response := (oracle k).1
  let cb_tokens := (oracle k).2
  (match parse_llm_response decode response cfg document_ids with
   | .ok d => .ok { d with tokens_used := cb_tokens }
   | .error e => .error e,
   [content])

/-- The map phase loop of _multi_document_synthesis, services.py lines
312-324: one _single_document_summary call per chunk in order,
collecting each chunk's full_summary and accumulating tokens_used; an
exception raised by any call aborts the loop and propagates.  k is the
oracle index of the next model call. -/
def mapPhase (decode : String → Option SummaryData)
    (oracle : Nat → String × Nat) (cfg : StakeholderConfig)
    (document_ids : List String) :
    Nat → List String → Except PyError (List String × Nat) × List String
  | _, [] => (.ok ([], 0), [])
  | k, chunk :: rest =>
    match single_document_summary decode oracle k chunk cfg document_ids with
    | (.error e, t) => (.error e, t)
    | (.ok d, t) =>
      match mapPhase decode oracle cfg document_ids (k + 1) rest with
      | (.error e, t2) => (.error e, t ++ t2)
      | (.ok (sums, toks), t2) =>
        (.ok (d.full_summary :: sums, d.tokens_used + toks), t ++ t2)

/-- Embedding of _multi_document_synthesis, services.py lines 292-337:
map each chunk, join the chunk summaries with a blank line (line 327),
run one reduce call on the joined text (lines 329-333), and report the
map-phase total plus the reduce call's usage (line 335).  There is no
size check on the joined text, no re-chunking of it, and no recursion
depth guard: the reduce step is the single _single_document_summary
call embedded here. -/
def multi_document_synthesis (decode : String → Option SummaryData)
    (oracle : Nat → String × Nat) (chunks : List String)
    (cfg : StakeholderConfig) (document_ids : List String) :
    Except PyError SummaryData × List String :=
  match mapPhase decode oracle cfg document_ids 0 chunks with
  | (.error e, t) => (.error e, t)
  | (.ok (sums, total), t) =>
    let combined_summaries := String.intercalate "\n\n" sums
    match single_document_summary decode oracle chunks.length combined_summaries
        cfg document_ids with
    | (.error e, t2) => (.error e, t ++ t2)
    | (.ok final, t2) =>
      (.ok { final with tokens_used := total + final.tokens_used }, t ++ t2)

/-- Embedding of _generate_with_langchain, services.py lines 172-217:
look up the stakeholder configuration with the executive default, split
the combined text (the langchain RecursiveCharacterTextSplitter is an
external library object held in self.text_splitter, abstracted as the
split parameter), choose multi-chunk synthesis exactly when more than
one chunk results, otherwise summarize the full combined text in a
single call (line 210 passes combined_text, not the single chunk), and
return the data together with its tokens_used entry (lines 215-217). -/
def generate_with_langchain (split : String → List String)
    (decode : String → Option SummaryData) (oracle : Nat → String × Nat)
    (stakeholder_role : String) (combined_text : String)
    (document_ids : List String) :
    Except PyError (SummaryData × Nat) × List String :=
  let cfg := getStakeholderConfig stakeholder_role
  let chunks := split combined_text
  let out :=
    if chunks.length > 1 then
      multi_document_synthesis decode oracle chunks cfg document_ids
    else
      single_document_summary decode oracle 0 combined_text cfg document_ids
  (out.1.map (fun d => (d, d.tokens_used)), out.2)

/-- Convenience: the summary data the decode stage yields for the raw
response of the k-th model call. -/
def oracleData (decode : String → Option SummaryData)
    (oracle : Nat → String × Nat) (k : Nat) : SummaryData :=
  (decode (oracle k).1).getD default

/-- Convenience: the total token usage the callback reports over the
first n model calls. -/
def oracleTokens (oracle : Nat → String × Nat) (n : Nat) : Nat :=
  ((List.range n).map (fun k => (oracle k).2)).sum

/-- Convenience: the blank-line-joined chunk summaries handed to the
reduce call when the map phase ran over n chunks. -/
def reduceInput (decode : String → Option SummaryData)
    (oracle : Nat → String × Nat) (n : Nat) : String :=
  String.intercalate "\n\n"
    ((List.range n).map (fun k => (oracleData decode oracle k).full_summary))

/-- When the decode of the k-th response succeeds, one single-document
call returns that data with tokens_used overwritten by the callback
total, and submits exactly its content to the model. -/
lemma single_document_summary_ok (decode : String → Option SummaryData)
    (oracle : Nat → String × Nat) (k : Nat) (content : String)
    (cfg : StakeholderConfig) (ids : List String)
    (h : (decode (oracle k).1).isSome = true) :
    single_document_summary decode oracle k content cfg ids =
      (.ok { oracleData decode oracle k with tokens_used := (oracle k).2 },
       [content]) := by
  obtain ⟨d, hd⟩ := Option.isSome_iff_exists.mp h
  simp [single_document_summary, parse_llm_response, oracleData, hd]

/-- Splitting a map over an index range shifted by a start offset into
its head call and the tail calls shifted one further. -/
lemma range_map_shift {α : Type} (f : Nat → α) (n s : Nat) :
    (List.range (n + 1)).map (fun i => f (s + i)) =
      f s :: (List.range n).map (fun i => f (s + 1 + i)) := by
  rw [List.range_succ_eq_map, List.map_cons, List.map_map]
  have hf : ((fun i => f (s + i)) ∘ Nat.succ) = fun i => f (s + 1 + i) := by
    funext i
    have e : s + Nat.succ i = s + 1 + i := by omega
    show f (s + Nat.succ i) = f (s + 1 + i)
    rw [e]
  rw [hf, Nat.add_zero]

/-- When every decode in range succeeds, the map phase over the chunks
starting at oracle index start yields the per-chunk summaries in chunk
order, the accumulated token usage, and one model call per chunk. -/
lemma mapPhase_ok (decode : String → Option SummaryData)
    (oracle : Nat → String × Nat) (cfg : StakeholderConfig)
    (ids : List String) :
    ∀ (chunks : List String) (start : Nat),
      (∀ k, k < chunks.length → (decode (oracle (start + k)).1).isSome = true) →
      mapPhase decode oracle cfg ids start chunks =
        (.ok ((List.range chunks.length).map
                (fun i => (oracleData decode oracle (start + i)).full_summary),
              ((List.range chunks.length).map
                (fun i => (oracle (start + i)).2)).sum),
         chunks) := by
  intro chunks
  induction chunks with
  | nil => intro start h; simp [mapPhase]
  | cons c rest ih =>
    intro start h
    have h0 : (decode (oracle start).1).isSome = true := by
      have h0 := h 0 (by simp)
      simpa using h0
    have hrest : ∀ k, k < rest.length →
        (decode (oracle (start + 1 + k)).1).isSome = true := by
      intro k hk
      have h1 := h (k + 1) (by simpa using Nat.succ_lt_succ hk)
      have e : start + (k + 1) = start + 1 + k := by omega
      rwa [e] at h1
    rw [mapPhase, single_document_summary_ok decode oracle start c cfg ids h0,
        ih (start + 1) hrest]
    simp only [List.length_cons,
      range_map_shift (fun j => (oracleData decode oracle j).full_summary)
        rest.length start,
      range_map_shift (fun j => (oracle j).2) rest.length start,
      List.sum_cons, List.singleton_append]

/-- When every decode among the first n + 1 calls succeeds, multi-chunk
synthesis over n chunks maps each chunk in order, runs one reduce call
on the blank-line-joined chunk summaries, and totals the usage of all
n + 1 calls. -/
lemma multi_document_synthesis_ok (decode : String → Option SummaryData)
    (oracle : Nat → String × Nat) (chunks : List String)
    (cfg : StakeholderConfig) (ids : List String)
    (h : ∀ k, k ≤ chunks.length → (decode (oracle k).1).isSome = true) :
    multi_document_synthesis decode oracle chunks cfg ids =
      (.ok { oracleData decode oracle chunks.length with
               tokens_used := oracleTokens oracle (chunks.length + 1) },
       chunks ++ [reduceInput decode oracle chunks.length]) := by
  have hmap := mapPhase_ok decode oracle cfg ids chunks 0
    (fun k hk => by simpa using h k (Nat.le_of_lt hk))
  simp only [Nat.zero_add] at hmap
  have hred := single_document_summary_ok decode oracle chunks.length
    (String.intercalate "\n\n" ((List.range chunks.length).map
      (fun i => (oracleData decode oracle i).full_summary))) cfg ids
    (h chunks.length le_rfl)
  simp [multi_document_synthesis, hmap, hred, oracleTokens, reduceInput,
    List.range_succ, Nat.add_comm]

/-- Single-chunk path of _generate_with_langchain: exactly one call on
the full combined text. -/
lemma generate_with_langchain_single (split : String → List String)
    (decode : String → Option SummaryData) (oracle : Nat → String × Nat)
    (role text : String) (ids : List String)
    (h1 : (split text).length ≤ 1)
    (h0 : (decode (oracle 0).1).isSome = true) :
    generate_with_langchain split decode oracle role text ids =
      (.ok ({ oracleData decode oracle 0 with tokens_used := (oracle 0).2 },
            (oracle 0).2),
       [text]) := by
  have hnot : ¬ (split text).length > 1 := by omega
  rw [generate_with_langchain]
  simp only [hnot, if_false,
    single_document_summary_ok decode oracle 0 text _ ids h0]
  simp [Except.map]

/-- Multi-chunk path of _generate_with_langchain: one call per chunk in
order, then the reduce call, summing token usage over all calls. -/
lemma generate_with_langchain_multi (split : String → List String)
    (decode : String → Option SummaryData) (oracle : Nat → String × Nat)
    (role text : String) (ids : List String)
    (h1 : 1 < (split text).length)
    (hdec : ∀ k, k ≤ (split text).length → (decode (oracle k).1).isSome = true) :
    generate_with_langchain split decode oracle role text ids =
      (.ok ({ oracleData decode oracle (split text).length with
                tokens_used := oracleTokens oracle ((split text).length + 1) },
            oracleTokens oracle ((split text).length + 1)),
       split text ++ [reduceInput decode oracle (split text).length]) := by
  rw [generate_with_langchain]
  simp only [h1, if_true, gt_iff_lt,
    multi_document_synthesis_ok decode oracle (split text) _ ids hdec]
  simp [Except.map]

/-- C2: for every input whose combined text splits into N chunks, when
every raw response decodes, N = 1 yields exactly one model invocation
(on the full text) whose reported tokens_used is that call's usage, and
N > 1 yields exactly N + 1 invocations, one per chunk in chunk order
followed by one reduce call on the blank-line-joined chunk summaries,
with reported tokens_used the sum of all N + 1 calls' usage. -/
theorem synthesize_invocation_count_and_tokens
    (split : String → List String) (decode : String → Option SummaryData)
    (oracle : Nat → String × Nat) (role text : String) (ids : List String)
    (hdec : ∀ k, k ≤ (split text).length → (decode (oracle k).1).isSome = true) :
    ((split text).length = 1 →
      (generate_with_langchain split decode oracle role text ids).2 = [text] ∧
      (generate_with_langchain split decode oracle role text ids).1 =
        .ok ({ oracleData decode oracle 0 with tokens_used := (oracle 0).2 },
             (oracle 0).2)) ∧
    (1 < (split text).length →
      (generate_with_langchain split decode oracle role text ids).2 =
        split text ++ [reduceInput decode oracle (split text).length] ∧
      (generate_with_langchain split decode oracle role text ids).1 =
        .ok ({ oracleData decode oracle (split text).length with
                 tokens_used := oracleTokens oracle ((split text).length + 1) },
             oracleTokens oracle ((split text).length + 1))) := by
  constructor
  · intro h1
    rw [generate_with_langchain_single split decode oracle role text ids
      (by omega) (hdec 0 (by omega))]
    exact ⟨rfl, rfl⟩
  · intro h1
    rw [generate_with_langchain_multi split decode oracle role text ids h1 hdec]
    exact ⟨rfl, rfl⟩

/-- A splitter producing two chunks for texts longer than four
characters, standing in for the external langchain splitter in the C2
witness run. -/
def splitC2 : String → List String := fun t =>
  if t.length ≤ 4 then [t] else [String.mk (t.data.take 4), String.mk (t.data.drop 4)]

def decodeC2 : String → Option SummaryData := fun _ =>
  some { sections := [], full_summary := "S", tokens_used := 0 }

def oracleC2 : Nat → String × Nat := fun k => ("response", k + 10)

/-- Witness for C2: a concrete three-call run (two chunks plus the
reduce call) with every hypothesis discharged by evaluation. -/
theorem synthesize_invocation_count_witness :
    1 < (splitC2 "abcdefgh").length ∧
    (generate_with_langchain splitC2 decodeC2 oracleC2 "finance" "abcdefgh" ["d1"]).2 =
      splitC2 "abcdefgh" ++ [reduceInput decodeC2 oracleC2 (splitC2 "abcdefgh").length] ∧
    (generate_with_langchain splitC2 decodeC2 oracleC2 "finance" "abcdefgh" ["d1"]).1 =
      .ok ({ oracleData decodeC2 oracleC2 (splitC2 "abcdefgh").length with
               tokens_used := oracleTokens oracleC2 ((splitC2 "abcdefgh").length + 1) },
           oracleTokens oracleC2 ((splitC2 "abcdefgh").length + 1)) := by
  refine ⟨by decide, ?_⟩
  exact (synthesize_invocation_count_and_tokens splitC2 decodeC2 oracleC2
    "finance" "abcdefgh" ["d1"] (fun k _ => rfl)).2 (by decide)

/-- Modelled from the spec: the Text Chunker of spec section 4.2.  The
repository configures the langchain RecursiveCharacterTextSplitter with
chunk_size 4000 and chunk_overlap 200 (services.py lines 87-91) but the
splitting algorithm itself lives in the external langchain library and
is not part of the repository; this definition follows the spec's
contract: an input that fits the window is returned as the single chunk
equal to the input, an oversized input is cut at the window bound and
the remainder is rechunked starting overlap characters back so that
consecutive chunks duplicate that region (the spec's preference for
natural boundaries is a soft should and does not affect the claims
settled here).  The step is clamped to at least one character so the
recursion always advances. -/
def splitChars (chunkSize overlap : Nat) (t : List Char) : List (List Char) :=
  if t.length ≤ chunkSize then [t]
  else
    t.take chunkSize ::
      splitChars chunkSize overlap (t.drop (max (chunkSize - overlap) 1))
termination_by t.length
decreasing_by
  rename_i h
  simp only [List.length_drop]
  omega

/-- Modelled from the spec: the split entry point as configured by the
service, window 4000 characters with 200 characters of overlap. -/
def text_splitter_split (s : String) : List String :=
  (splitChars 4000 200 s.data).map (fun cs => String.mk cs)

/-- C7: for every text of length at most one chunk window (4000
characters with the configured splitter), the chunker returns exactly
one chunk, equal to the full input text. -/
theorem chunker_small_input_single_chunk (s : String) (h : s.length ≤ 4000) :
    text_splitter_split s = [s] := by
  have hd : s.data.length ≤ 4000 := h
  rw [text_splitter_split, splitChars, if_pos hd, List.map_cons, List.map_nil]

/-- Witness for C7 at a concrete five-character input. -/
theorem chunker_small_input_witness :
    "hello".length ≤ 4000 ∧ text_splitter_split "hello" = ["hello"] :=
  ⟨by decide, chunker_small_input_single_chunk "hello" (by decide)⟩

/-- Embedding of estimate_tokens, utils.py lines 84-95: the character
count integer-divided by four. -/
def estimate_tokens (text : String) : Nat := text.length / 4

/-- C8: the token estimator returns the character count integer-divided
by four, hence a non-negative integer, and it is monotonic in text
length; it is a pure function of its argument, so determinism holds by
construction. -/
theorem estimate_tokens_spec :
    (∀ s : String, estimate_tokens s = s.length / 4) ∧
    (∀ s t : String, s.length ≤ t.length → estimate_tokens s ≤ estimate_tokens t) :=
  ⟨fun _ => rfl, fun _ _ h => Nat.div_le_div_right h⟩

/-- Witness for C8 at concrete strings. -/
theorem estimate_tokens_spec_witness :
    estimate_tokens "abcde" = "abcde".length / 4 ∧
    ("ab".length ≤ "abcdefgh".length ∧
      estimate_tokens "ab" ≤ estimate_tokens "abcdefgh") :=
  ⟨estimate_tokens_spec.1 "abcde",
   by decide, estimate_tokens_spec.2 "ab" "abcdefgh" (by decide)⟩

/-- C9: for every stakeholder_role outside the eight known roles, the
synthesizer does not reject the job: the dict lookup falls back to the
executive entry, so the whole generation run is the one it would
perform for the executive role, for every splitter, decoder, oracle,
input text and document id list. -/
theorem unknown_role_uses_executive_profile (role : String)
    (h : role ∉ knownRoles) :
    getStakeholderConfig role = executiveConfig ∧
    ∀ (split : String → List String) (decode : String → Option SummaryData)
      (oracle : Nat → String × Nat) (text : String) (ids : List String),
      generate_with_langchain split decode oracle role text ids =
        generate_with_langchain split decode oracle "executive" text ids := by
  simp only [knownRoles, List.mem_cons, List.mem_singleton, not_or] at h
  obtain ⟨h1, h2, h3, h4, h5, h6, h7, h8, -⟩ := h
  have hcfg : getStakeholderConfig role = executiveConfig := by
    simp [getStakeholderConfig, h1, h2, h3, h4, h5, h6, h7, h8]
  refine ⟨hcfg, fun split decode oracle text ids => ?_⟩
  have hexec : getStakeholderConfig "executive" = executiveConfig := rfl
  simp only [generate_with_langchain, hcfg, hexec]

/-- Witness for C9 at the concrete unknown role "auditor". -/
theorem unknown_role_witness :
    getStakeholderConfig "auditor" = executiveConfig ∧
    generate_with_langchain splitC2 decodeC2 oracleC2 "auditor" "abcdefgh" ["d1"] =
      generate_with_langchain splitC2 decodeC2 oracleC2 "executive" "abcdefgh" ["d1"] :=
  ⟨(unknown_role_uses_executive_profile "auditor" (by decide)).1,
   (unknown_role_uses_executive_profile "auditor" (by decide)).2
     splitC2 decodeC2 oracleC2 "abcdefgh" ["d1"]⟩

/-- Embedding of the SummaryJob row, models.py lines 8-68.  Timestamps
are abstract ticks; processing_time is a Python float whose only
observed property in the claims is whether it is zero, modelled exactly
by a rational. -/
structure JobRec where
  id : String
  project_id : String
  stakeholder_role : String
  document_ids : List String
  focus_areas : List String
  max_length : Nat
  status : String
  error_message : Option String
  model_used : Option String
  tokens_used : Option Nat
  processing_time : Option Rat
  created_at : Nat
  updated_at : Nat
  completed_at : Option Nat
deriving DecidableEq, Repr

/-- Python truthiness of an optional string: None and the empty string
are falsy. -/
def truthyS (v : Option String) : Bool :=
  match v with
  | none => false
  | some s => decide (s ≠ "")

/-- Python truthiness of an optional integer: None and 0 are falsy. -/
def truthyN (v : Option Nat) : Bool :=
  match v with
  | none => false
  | some n => decide (n ≠ 0)

/-- Python truthiness of an optional float: None and 0.0 are falsy. -/
def truthyQ (v : Option Rat) : Bool :=
  match v with
  | none => false
  | some q => decide (q ≠ 0)

/-- Embedding of SummaryJob.mark_processing, models.py lines 73-76: the
status is assigned unconditionally, whatever it was, and the save
refreshes updated_at. -/
def mark_processing (j : JobRec) (now : Nat) : JobRec :=
  { j with status := "processing", updated_at := now }

/-- Embedding of SummaryJob.mark_completed, models.py lines 78-88: the
status is assigned unconditionally, completed_at is stamped, and each
metadata field is written only when its argument is truthy. -/
def mark_completed (j : JobRec) (now : Nat) (model_used : Option String)
    (tokens_used : Option Nat) (processing_time : Option Rat) : JobRec :=
  { j with
    status := "completed"
    completed_at := some now
    model_used := if truthyS model_used then model_used else j.model_used
    tokens_used := if truthyN tokens_used then tokens_used else j.tokens_used
    processing_time :=
      if truthyQ processing_time then processing_time else j.processing_time
    updated_at := now }

/-- Embedding of SummaryJob.mark_failed, models.py lines 90-95: the
status and error message are assigned unconditionally and completed_at
is stamped. -/
def mark_failed (j : JobRec) (now : Nat) (error_message : String) : JobRec :=
  { j with
    status := "failed"
    error_message := some error_message
    completed_at := some now
    updated_at := now }

/-- A fresh pending job as the views create it. -/
def freshJob : JobRec :=
  { id := "job-1"
    project_id := "project-1"
    stakeholder_role := "developer"
    document_ids := ["d1"]
    focus_areas := []
    max_length := 500
    status := "pending"
    error_message := none
    model_used := none
    tokens_used := none
    processing_time := none
    created_at := 0
    updated_at := 0
    completed_at := none }

/-- C3 fails on the code: the transition methods carry no terminal-state
guard.  Counterexample: drive the fresh job to completed, then call
mark_processing on it; the status of the completed job is overwritten
back to processing, so a transition-method call does change the status
of a job in a terminal state. -/
theorem mark_processing_overwrites_terminal_cex :
    (mark_completed (mark_processing freshJob 1) 2 (some "gpt-4") (some 100)
      (some 1)).status = "completed" ∧
    (mark_processing (mark_completed (mark_processing freshJob 1) 2
      (some "gpt-4") (some 100) (some 1)) 3).status = "processing" := by
  constructor <;> rfl

/-- C3 amended: under the controller's call discipline, a pending job
moves pending, processing, then exactly one of completed or failed, so
the monotonic trajectory of the claim holds for the sequences the
controller issues; the methods themselves enforce no guard, and
mark_processing called on a job already in a terminal state overwrites
the status back to processing. -/
theorem job_status_monotone_under_discipline (j : JobRec) (t1 t2 : Nat)
    (m : Option String) (tk : Option Nat) (p : Option Rat) (e : String)
    (h : j.status = "pending") :
    ([j.status, (mark_processing j t1).status,
       (mark_completed (mark_processing j t1) t2 m tk p).status] =
      ["pending", "processing", "completed"]) ∧
    ([j.status, (mark_processing j t1).status,
       (mark_failed (mark_processing j t1) t2 e).status] =
      ["pending", "processing", "failed"]) ∧
    (∀ jDone : JobRec, jDone.status = "completed" ∨ jDone.status = "failed" →
      (mark_processing jDone t2).status = "processing") := by
  refine ⟨?_, ?_, fun jDone _ => rfl⟩ <;> simp [mark_processing, mark_completed, mark_failed, h]

/-- Witness for the amended C3 at the fresh pending job. -/
theorem job_status_monotone_witness :
    freshJob.status = "pending" ∧
    [freshJob.status, (mark_processing freshJob 1).status,
      (mark_completed (mark_processing freshJob 1) 2 (some "gpt-4") (some 100)
        (some 1)).status] = ["pending", "processing", "completed"] :=
  ⟨rfl, (job_status_monotone_under_discipline freshJob 1 2 (some "gpt-4")
    (some 100) (some 1) "err" rfl).1⟩

/-- C10: on every mark_completed call the status becomes completed and
completed_at is stamped, and each metadata argument is framed
independently: whenever one of model_used, tokens_used or
processing_time is falsy (None, empty string, zero), that field alone
keeps its prior value, whatever the truthiness of the other two
arguments. -/
theorem mark_completed_falsy_frame (j : JobRec) (now : Nat)
    (m : Option String) (t : Option Nat) (p : Option Rat) :
    (mark_completed j now m t p).status = "completed" ∧
    (mark_completed j now m t p).completed_at = some now ∧
    (truthyS m = false →
      (mark_completed j now m t p).model_used = j.model_used) ∧
    (truthyN t = false →
      (mark_completed j now m t p).tokens_used = j.tokens_used) ∧
    (truthyQ p = false →
      (mark_completed j now m t p).processing_time = j.processing_time) := by
  refine ⟨rfl, rfl, ?_, ?_, ?_⟩ <;> intro h <;> simp [mark_completed, h]

/-- Witness for C10 at the claim's own instance: a successful run that
used zero tokens but reports a real model name and a non-zero duration
still leaves tokens_used at its prior unset value, with the job
completed and completed_at stamped. -/
theorem mark_completed_falsy_frame_witness :
    truthyN (some 0) = false ∧
    (mark_completed freshJob 7 (some "gpt-4") (some 0) (some 1)).tokens_used =
      freshJob.tokens_used ∧
    (mark_completed freshJob 7 (some "gpt-4") (some 0) (some 1)).status =
      "completed" ∧
    (mark_completed freshJob 7 (some "gpt-4") (some 0) (some 1)).completed_at =
      some 7 :=
  ⟨by decide,
   (mark_completed_falsy_frame freshJob 7 (some "gpt-4") (some 0)
     (some 1)).2.2.2.1 (by decide),
   (mark_completed_falsy_frame freshJob 7 (some "gpt-4") (some 0) (some 1)).1,
   (mark_completed_falsy_frame freshJob 7 (some "gpt-4") (some 0)
     (some 1)).2.1⟩

/-- A GeneratedSummary row, models.py lines 98-124, as created at
services.py lines 400-406. -/
structure SummaryRec where
  id : String
  job_id : String
  project_id : String
  stakeholder_role : String
  full_summary : String
deriving DecidableEq, Repr

/-- A SummarySection row, models.py lines 130-169, as created at
services.py lines 409-417. -/
structure SectionRec where
  summary_id : String
  title : String
  content : String
  order : Nat
  key_points : List String
  evidence_ids : List String
deriving DecidableEq, Repr

/-- The persisted summary state: the generated_summaries and
summary_sections tables.  Document contexts are also persisted rows but
the claims only observe summaries and sections. -/
structure Store where
  summaries : List SummaryRec
  sections : List SectionRec
deriving DecidableEq, Repr

/-- The empty store. -/
def emptyStore : Store := { summaries := [], sections := [] }

/-- The section-creation loop of _create_summary_records, services.py
lines 409-417: one SummarySection insert per section in order.  Each
database insert is an external operation that can raise; sectionInsert
gives the outcome of the insert for the section at each index (none
means success).  A failing insert aborts the loop, leaving the rows
already inserted in the store. -/
def createSections (sectionInsert : Nat → Option PyError)
    (summary_id : String) :
    Nat → List SSection → Store → Except PyError Unit × Store
  | _, [], st => (.ok (), st)
  | i, s :: rest, st =>
    match sectionInsert i with
    | some e => (.error e, st)
    | none =>
      createSections sectionInsert summary_id (i + 1) rest
        { st with
            sections := st.sections ++
              [{ summary_id := summary_id
                 title := s.title
                 content := s.content
                 order := i
                 key_points := s.key_points
                 evidence_ids := s.evidence_ids }] }

/-- Embedding of _create_summary_records, services.py lines 384-421:
create the GeneratedSummary row (id sum_ prefixed to the job id), then
the section rows in order.  summaryInsert is the outcome of the summary
row insert.  There is no enclosing transaction anywhere in the
repository (no transaction.atomic and no ATOMIC_REQUESTS setting), so
rows inserted before a failure stay in the store. -/
def create_summary_records (summaryInsert : Option PyError)
    (sectionInsert : Nat → Option PyError) (job : JobRec)
    (data : SummaryData) (st : Store) : Except PyError SummaryRec × Store :=
  match summaryInsert with
  | some e => (.error e, st)
  | none =>
    let srec : SummaryRec :=
      { id := "sum_" ++ job.id
        job_id := job.id
        project_id := job.project_id
        stakeholder_role := job.stakeholder_role
        full_summary := data.full_summary }
    let st1 : Store := { st with summaries := st.summaries ++ [srec] }
    match createSections sectionInsert srec.id 0 data.sections st1 with
    | (.error e, st2) => (.error e, st2)
    | (.ok _, st2) => (.ok srec, st2)

/-- The per-document loop of _fetch_document_contexts, services.py lines
154-170: one DocumentContext insert per requested document id, with the
placeholder extracted text of line 163.  ctxInsert is the outcome of
each insert; a failure propagates out of the loop. -/
def fetchGo (ctxInsert : Nat → Option PyError) :
    Nat → List String → Except PyError (List (String × String))
  | _, [] => .ok []
  | i, d :: rest =>
    match ctxInsert i with
    | some e => .error e
    | none =>
      match fetchGo ctxInsert (i + 1) rest with
      | .error e => .error e
      | .ok l =>
        .ok ((d, "[Document " ++ d ++
          " content would be fetched from ingestion service]") :: l)

/-- Embedding of _fetch_document_contexts, services.py lines 144-170. -/
def fetch_document_contexts (ctxInsert : Nat → Option PyError)
    (job : JobRec) : Except PyError (List (String × String)) :=
  fetchGo ctxInsert 0 job.document_ids

/-- Embedding of generate_summary, services.py lines 93-142, the job
lifecycle controller: mark the job processing, fetch the document
contexts, run the langchain generation, create the summary records,
then mark the job completed with model, token and duration metadata; on
any exception mark the job failed with str(e) and re-raise.  The result
triple is (re-raised error or the created summary, the final job row,
the final store).  The elapsed duration and the clock are inputs, as
time.time is external. -/
def generate_summary (ctxInsert : Nat → Option PyError)
    (split : String → List String) (decode : String → Option SummaryData)
    (oracle : Nat → String × Nat) (summaryInsert : Option PyError)
    (sectionInsert : Nat → Option PyError) (model_name : String)
    (elapsed : Rat) (now : Nat) (job : JobRec) (st : Store) :
    Except PyError SummaryRec × JobRec × Store :=
  let job1 := mark_processing job now
  match fetch_document_contexts ctxInsert job1 with
  | .error e => (.error e, mark_failed job1 now e.str, st)
  | .ok contexts =>
    match (generate_with_langchain split decode oracle job1.stakeholder_role
        (combine_document_texts contexts) job1.document_ids).1 with
    | .error e => (.error e, mark_failed job1 now e.str, st)
    | .ok (data, tokens) =>
      match create_summary_records summaryInsert sectionInsert job1 data st with
      | (.error e, st2) => (.error e, mark_failed job1 now e.str, st2)
      | (.ok srec, st2) =>
        (.ok srec,
         mark_completed job1 now (some model_name) (some tokens) (some elapsed),
         st2)

/-- Context inserts that all succeed, for the C4 counterexample run. -/
def ctxOkC4 : Nat → Option PyError := fun _ => none

/-- A splitter that keeps the text whole, standing in for the external
splitter in the C4 runs. -/
def splitC4 : String → List String := fun t => [t]

/-- Decoded model output with one section, for the C4 runs. -/
def dataC4 : SummaryData :=
  { sections := [{ title := "T", content := "c", key_points := ["k"], evidence_ids := ["d1"] }]
    full_summary := "S4"
    tokens_used := 0 }

def decodeC4 : String → Option SummaryData := fun _ => some dataC4

def oracleC4 : Nat → String × Nat := fun _ => ("resp", 10)

/-- Section inserts that all fail, for the C4 counterexample run. -/
def sectionFailC4 : Nat → Option PyError :=
  fun _ => some (.generic "section insert failed")

/-- C4 fails on the code for record-creation failures: there is no
transaction around _create_summary_records, so when the GeneratedSummary
insert succeeds and a SummarySection insert then raises, the job is
marked failed and the error re-raised, but the created summary row stays
persisted.  Counterexample: a run whose only failure is the first
section insert ends with a failed job and a non-empty summaries table
for that job, contradicting that no StructuredSummary, full or partial,
is left persisted. -/
theorem generate_summary_leftover_row_cex :
    (generate_summary ctxOkC4 splitC4 decodeC4 oracleC4 none sectionFailC4
      "gpt-4" 1 5 freshJob emptyStore).1 =
        .error (.generic "section insert failed") ∧
    (generate_summary ctxOkC4 splitC4 decodeC4 oracleC4 none sectionFailC4
      "gpt-4" 1 5 freshJob emptyStore).2.1.status = "failed" ∧
    (generate_summary ctxOkC4 splitC4 decodeC4 oracleC4 none sectionFailC4
      "gpt-4" 1 5 freshJob emptyStore).2.2.summaries =
      [{ id := "sum_job-1", job_id := "job-1", project_id := "project-1",
         stakeholder_role := "developer", full_summary := "S4" }] := by
  refine ⟨?_, ?_, ?_⟩ <;> rfl

/-- C4 amended: when the failure occurs before record creation (context
fetch, or the model invocation and parsing stage), the claim holds: the
job ends failed with error_message exactly str(e), the exception is
re-raised to the caller, and the persisted summary state is exactly the
one the run started with, so no summary or section row is left for the
job; a failure inside record creation still fails the job and re-raises
but can leave the already-inserted summary row behind (see the
counterexample). -/
theorem generate_summary_prefail_no_persist
    (ctxInsert : Nat → Option PyError) (split : String → List String)
    (decode : String → Option SummaryData) (oracle : Nat → String × Nat)
    (summaryInsert : Option PyError) (sectionInsert : Nat → Option PyError)
    (model_name : String) (elapsed : Rat) (now : Nat) (job : JobRec)
    (st : Store) (e : PyError)
    (h : fetch_document_contexts ctxInsert (mark_processing job now) =
          .error e ∨
      ∃ contexts,
        fetch_document_contexts ctxInsert (mark_processing job now) =
          .ok contexts ∧
        (generate_with_langchain split decode oracle
          (mark_processing job now).stakeholder_role
          (combine_document_texts contexts)
          (mark_processing job now).document_ids).1 = .error e) :
    generate_summary ctxInsert split decode oracle summaryInsert sectionInsert
        model_name elapsed now job st =
      (.error e, mark_failed (mark_processing job now) now e.str, st) := by
  rcases h with h | ⟨contexts, h1, h2⟩
  · simp [generate_summary, h]
  · simp [generate_summary, h1, h2]

/-- Context inserts whose first insert fails, for the C4 witness run. -/
def ctxFailC4 : Nat → Option PyError := fun _ => some (.generic "fetch failed")

/-- Section inserts that all succeed, for the C4 witness run. -/
def sectionOkC4 : Nat → Option PyError := fun _ => none

/-- Witness for the amended C4: a concrete run whose context fetch
fails leaves the job failed with the fetch error message and the store
untouched, and re-raises the error. -/
theorem generate_summary_prefail_witness :
    fetch_document_contexts ctxFailC4 (mark_processing freshJob 5) =
      .error (.generic "fetch failed") ∧
    generate_summary ctxFailC4 splitC4 decodeC4 oracleC4 none sectionOkC4
        "gpt-4" 1 5 freshJob emptyStore =
      (.error (.generic "fetch failed"),
       mark_failed (mark_processing freshJob 5) 5
         (PyError.str (.generic "fetch failed")),
       emptyStore) :=
  ⟨rfl,
   generate_summary_prefail_no_persist ctxFailC4 splitC4 decodeC4 oracleC4
     none sectionOkC4 "gpt-4" 1 5 freshJob emptyStore
     (.generic "fetch failed") (Or.inl rfl)⟩

/-- A 2500-character chunk summary used in the C5 runs. -/
def bigS : String := String.mk (List.replicate 2500 'a')

/-- Decoded model output whose full_summary is 2500 characters, so two
chunk summaries joined with a blank line exceed the 4000-character
window. -/
def dataC5 : SummaryData := { sections := [], full_summary := bigS, tokens_used := 0 }

def decodeC5 : String → Option SummaryData := fun _ => some dataC5

def oracleC5 : Nat → String × Nat := fun _ => ("r", 1)

/-- A splitter producing two chunks for the marker input, standing in
for the external splitter in the C5 runs. -/
def splitC5 : String → List String := fun t => if t = "DOC" then ["c1", "c2"] else [t]

/-- The joined chunk summaries of the C5 runs are 5002 characters, more
than one 4000-character chunk window. -/
lemma reduceInputC5_big : 4000 < (reduceInput decodeC5 oracleC5 2).length := by
  have h1 : reduceInput decodeC5 oracleC5 2 = bigS ++ "\n\n" ++ bigS := rfl
  have h2 : bigS.length = 2500 := by
    show (List.replicate 2500 'a').length = 2500
    rw [List.length_replicate]
  have h3 : ("\n\n" : String).length = 2 := rfl
  rw [h1, String.length_append, String.length_append, h2, h3]
  norm_num

/-- C5 fails on the code: _multi_document_synthesis runs exactly one
reduce call on the joined chunk summaries whatever their size; it never
re-chunks them, has no depth cutoff, and the repository defines no
RecursionLimitExceeded error (exceptions.py lists eight exceptions,
none recursion-related).  Counterexample: a concrete run whose joined
chunk summaries are 5002 characters, more than one 4000-character
window, still makes exactly the two map calls plus one reduce call and
returns normally instead of re-chunking or raising. -/
theorem reduce_overflow_no_recursion_cex :
    4000 < (reduceInput decodeC5 oracleC5 2).length ∧
    (generate_with_langchain splitC5 decodeC5 oracleC5 "executive" "DOC" []).2 =
      ["c1", "c2", reduceInput decodeC5 oracleC5 2] ∧
    (generate_with_langchain splitC5 decodeC5 oracleC5 "executive" "DOC" []).1 =
      .ok ({ oracleData decodeC5 oracleC5 2 with tokens_used := oracleTokens oracleC5 3 },
           oracleTokens oracleC5 3) := by
  refine ⟨reduceInputC5_big, ?_, ?_⟩
  · have h := generate_with_langchain_multi splitC5 decodeC5 oracleC5
      "executive" "DOC" [] (by decide) (fun k _ => rfl)
    rw [h]
    rfl
  · have h := generate_with_langchain_multi splitC5 decodeC5 oracleC5
      "executive" "DOC" [] (by decide) (fun k _ => rfl)
    rw [h]
    rfl

/-- C5 amended: the reduce phase is one unguarded pass: whenever the
input splits into more than one chunk and each response decodes, the
synthesizer issues exactly one reduce call on the blank-line-joined
chunk summaries and returns its parsed result normally, even when that
joined input is larger than the 4000-character chunk window; no
recursive reapplication takes place and no recursion-limit error
exists to be raised. -/
theorem reduce_single_pass_unguarded (split : String → List String)
    (decode : String → Option SummaryData) (oracle : Nat → String × Nat)
    (role text : String) (ids : List String)
    (hn : 1 < (split text).length)
    (hdec : ∀ k, k ≤ (split text).length → (decode (oracle k).1).isSome = true)
    (_hbig : 4000 < (reduceInput decode oracle (split text).length).length) :
    (generate_with_langchain split decode oracle role text ids).2 =
      split text ++ [reduceInput decode oracle (split text).length] ∧
    (generate_with_langchain split decode oracle role text ids).1 =
      .ok ({ oracleData decode oracle (split text).length with
               tokens_used := oracleTokens oracle ((split text).length + 1) },
           oracleTokens oracle ((split text).length + 1)) := by
  rw [generate_with_langchain_multi split decode oracle role text ids hn hdec]
  exact ⟨rfl, rfl⟩

/-- Witness for the amended C5 at the concrete oversized run. -/
theorem reduce_single_pass_witness :
    1 < (splitC5 "DOC").length ∧
    4000 < (reduceInput decodeC5 oracleC5 (splitC5 "DOC").length).length ∧
    (generate_with_langchain splitC5 decodeC5 oracleC5 "executive" "DOC" []).2 =
      splitC5 "DOC" ++ [reduceInput decodeC5 oracleC5 (splitC5 "DOC").length] :=
  ⟨by decide, reduceInputC5_big,
   (reduce_single_pass_unguarded splitC5 decodeC5 oracleC5 "executive" "DOC" []
     (by decide) (fun k _ => rfl) reduceInputC5_big).1⟩
